import Mathlib

/-!
Shallow embedding of `net/instaweb/rewriter/critical_images_finder.cc`
(CriticalImagesFinder): the serialization codec for critical-image sets, the
property-cache reader/writer with its observability counters, and the
request-scoped memoized snapshot stored on the RewriteDriver.

Strings (`GoogleString`) are modelled as `List Char`; `StringSet`
(`std::set<GoogleString>`, deduplicated, iterated in lexicographic order) is
modelled as `Finset (List Char)` enumerated by `Finset.sort (· ≤ ·)` under the
lexicographic order.  Stateful C++ is modelled by explicit state passing:
operations return the updated driver / property page / statistics, and the
driver-population step additionally reports how many property-cache slot
lookups (`PropertyPage::GetProperty` calls) it performed, so that memoization
can be stated.
-/

namespace NetInstaweb

/-- Model of GoogleString, as a list of characters. -/
abbrev GoogleString := List Char

/-- Model of StringSet (a `std::set<GoogleString>`): duplicates collapsed, no order. -/
abbrev StringSet := Finset GoogleString

/-- The single character of `kImageUrlSeparator[] = "\n"`. -/
def kImageUrlSeparatorChar : Char := '\n'

/-- The separator as a string, as the C++ constant is a string. -/
def kImageUrlSeparator : GoogleString := [kImageUrlSeparatorChar]

/-- Model of `SplitStringPieceToVector(value, kImageUrlSeparator, &v, true)` from
string_util (not under src/), modelled from the spec: splits on the separator
character and, with `omit_empty_strings = true` as at the only call site,
discards the empty tokens produced by the split. -/
def SplitStringPieceToVectorOmitEmpty (value : GoogleString) (sep : Char) :
    List GoogleString :=
  (value.splitOn sep).filter (fun t => !t.isEmpty)

/-- Iteration order of a `std::set<GoogleString>`: its elements in increasing
lexicographic order.  (Same list as `Finset.sort (· ≤ ·)`, but implemented by
insertion sort so that it reduces inside the kernel.) -/
def setIterationOrder (s : StringSet) : List GoogleString :=
  Quot.liftOn s.val (fun l => l.insertionSort (· ≤ ·)) (fun l₁ l₂ h =>
    List.eq_of_perm_of_sorted
      (((l₁.perm_insertionSort _)).trans (h.trans (l₂.perm_insertionSort _).symm))
      (List.sorted_insertionSort _ l₁) (List.sorted_insertionSort _ l₂))

/-- Serializer `FormatSetForPropertyCache`: joins all identifiers of the set with the
separator (a `std::set` iterates in lexicographic order); if the buffer is
empty afterwards, the result is the lone separator, the empty-set sentinel,
because the property cache does not store empty values. -/
def FormatSetForPropertyCache (critical_images : StringSet) : GoogleString :=
  let buf := [kImageUrlSeparatorChar].intercalate (setIterationOrder critical_images)
  if buf.isEmpty then kImageUrlSeparator else buf

/-- The set obtained by inserting every non-empty token of a stored value:
the contents of the deserialization loop in `ExtractCriticalImagesSet`. -/
def ParseCriticalImagesValue (value : GoogleString) : StringSet :=
  (SplitStringPieceToVectorOmitEmpty value kImageUrlSeparatorChar).toFinset

/-- The three statistics variables registered by `InitStats`
(`critical_images_valid_count`, `critical_images_expired_count`,
`critical_images_not_found_count`): monotonically increasing counters. -/
structure Statistics where
  critical_images_valid_count : Nat
  critical_images_expired_count : Nat
  critical_images_not_found_count : Nat
deriving DecidableEq

/-- Counter bump `critical_images_valid_count_->Add(1)`. -/
def Statistics.addValid (s : Statistics) : Statistics :=
  ⟨s.critical_images_valid_count + 1, s.critical_images_expired_count,
    s.critical_images_not_found_count⟩

/-- Counter bump `critical_images_expired_count_->Add(1)`. -/
def Statistics.addExpired (s : Statistics) : Statistics :=
  ⟨s.critical_images_valid_count, s.critical_images_expired_count + 1,
    s.critical_images_not_found_count⟩

/-- Counter bump `critical_images_not_found_count_->Add(1)`. -/
def Statistics.addNotFound (s : Statistics) : Statistics :=
  ⟨s.critical_images_valid_count, s.critical_images_expired_count,
    s.critical_images_not_found_count + 1⟩

/-- A `PropertyValue` that `has_value()`: the stored string together with the
write timestamp the storage engine maintains.  A slot with no value at all is
modelled as `none : Option PropertyValue`. -/
structure PropertyValue where
  value : GoogleString
  write_timestamp_ms : Int
deriving DecidableEq

/-- Modelled from the spec: `PropertyCache::IsExpired` (property_cache.cc, not
under src/) reports a stored value as expired exactly when the configured TTL
is smaller than its age `now - write_timestamp`. -/
def IsExpired (property_value : PropertyValue) (ttl_ms now_ms : Int) : Bool :=
  ttl_ms < now_ms - property_value.write_timestamp_ms

/-- The two fixed storage slots of one `PropertyPage` in the critical-images
cohort: `kCriticalImagesPropertyName = "critical_images"` (HTML-sourced) and
`kCssCriticalImagesPropertyName = "css_critical_images"` (CSS-sourced).
`page->GetProperty(cohort, name)` is modelled by projecting the field;
`none` means the returned handle has no value. -/
structure PropertyPage where
  critical_images : Option PropertyValue
  css_critical_images : Option PropertyValue
deriving DecidableEq

/-- The property cache as this system sees it: whether
`GetCohort(GetCriticalImagesCohort())` resolves to a non-NULL cohort. -/
structure PropertyCache where
  has_critical_images_cohort : Bool
deriving DecidableEq

/-- Modelled from the spec: `CriticalImagesInfo` (declared in the header
`critical_images_finder.h` / `rewrite_driver.h`, not under src/) is the
request-scoped snapshot holding two independently optional critical-image
sets; a sub-value is `none` when never looked up, absent, or expired. -/
structure CriticalImagesInfo where
  html_critical_images : Option StringSet
  css_critical_images : Option StringSet
deriving DecidableEq

/-- The slice of `RewriteDriver` (and its `RewriteOptions`) that
`CriticalImagesFinder` reads: the request-scoped snapshot
(`critical_images_info()`, NULL until set), the flush-early flag, the
configured TTL `finder_properties_cache_expiration_time_ms`, and the
request's `property_page()` (possibly NULL). -/
structure RewriteDriver where
  critical_images_info : Option CriticalImagesInfo
  flushing_early : Bool
  finder_properties_cache_expiration_time_ms : Int
  property_page : Option PropertyPage
deriving DecidableEq

/-- Setter `driver->set_critical_images_info(info)`. -/
def RewriteDriver.setCriticalImagesInfo (driver : RewriteDriver)
    (info : CriticalImagesInfo) : RewriteDriver :=
  ⟨some info, driver.flushing_early,
    driver.finder_properties_cache_expiration_time_ms, driver.property_page⟩

/-- Outcome of `ExtractCriticalImagesSet`: the final contents of the
`critical_images` out-parameter, whether the valid branch ran (the only path
that inserts into the out-parameter before its early return), and the updated
statistics. -/
structure ExtractOutcome where
  critical_images : StringSet
  is_valid : Bool
  stats : Statistics
deriving DecidableEq

/-- Model of `CriticalImagesFinder::ExtractCriticalImagesSet`: reads the property
value; absent → not-found counter; present but expired under the driver's
configured TTL → expired counter; otherwise splits the stored string on the
separator (omitting empty tokens) and inserts every token into the
out-parameter, bumping the valid counter.  Counters are only touched when
`track_stats` holds and the driver is not flushing early. -/
def ExtractCriticalImagesSet (driver : RewriteDriver)
    (property_value : Option PropertyValue) (track_stats : Bool)
    (critical_images : StringSet) (now_ms : Int) (stats : Statistics) :
    ExtractOutcome :=
  let ts := track_stats && !driver.flushing_early
  let cache_ttl_ms := driver.finder_properties_cache_expiration_time_ms
  match property_value with
  | some pv =>
    let is_valid := !IsExpired pv cache_ttl_ms now_ms
    if is_valid then
      ⟨critical_images ∪ ParseCriticalImagesValue pv.value, true,
        if ts then stats.addValid else stats⟩
    else
      ⟨critical_images, false, if ts then stats.addExpired else stats⟩
  | none => ⟨critical_images, false, if ts then stats.addNotFound else stats⟩

/-- Outcome of `UpdateCriticalImagesSetInDriver`: the updated driver and
statistics, plus how many times each of the two storage slots was looked up
via `page->GetProperty` (instrumentation for the memoization property). -/
structure DriverUpdateOutcome where
  driver : RewriteDriver
  stats : Statistics
  html_slot_lookups : Nat
  css_slot_lookups : Nat
deriving DecidableEq

/-- Model of `CriticalImagesFinder::UpdateCriticalImagesSetInDriver`: if the driver's
snapshot already exists, do nothing; otherwise build a fresh snapshot, and —
only when both the property page and the cohort are available — look up the
two slots and extract each sub-value (a sub-value becomes `some` exactly when
the valid branch of the extraction ran, `none` otherwise, per the
spec-modelled `CriticalImagesInfo`).  The snapshot is installed on the driver
unconditionally. -/
def UpdateCriticalImagesSetInDriver (driver : RewriteDriver)
    (page_property_cache : PropertyCache) (now_ms : Int) (stats : Statistics) :
    DriverUpdateOutcome :=
  match driver.critical_images_info with
  | some _ => ⟨driver, stats, 0, 0⟩
  | none =>
    match driver.property_page, page_property_cache.has_critical_images_cohort with
    | some page, true =>
      let o₁ := ExtractCriticalImagesSet driver page.critical_images true ∅
        now_ms stats
      let o₂ := ExtractCriticalImagesSet driver page.css_critical_images true ∅
        now_ms o₁.stats
      let info : CriticalImagesInfo :=
        ⟨if o₁.is_valid then some o₁.critical_images else none,
          if o₂.is_valid then some o₂.critical_images else none⟩
      ⟨driver.setCriticalImagesInfo info, o₂.stats, 1, 1⟩
    | _, _ => ⟨driver.setCriticalImagesInfo ⟨none, none⟩, stats, 0, 0⟩

/-- Outcome of an accessor (`GetHtmlCriticalImages` / `GetCssCriticalImages`):
the returned optional set and the threaded state and lookup counts. -/
structure AccessOutcome where
  result : Option StringSet
  driver : RewriteDriver
  stats : Statistics
  html_slot_lookups : Nat
  css_slot_lookups : Nat
deriving DecidableEq

/-- Model of `CriticalImagesFinder::GetHtmlCriticalImages`: memoize, then return the
HTML-sourced sub-value of the snapshot (NULL when there is no snapshot). -/
def GetHtmlCriticalImages (driver : RewriteDriver)
    (page_property_cache : PropertyCache) (now_ms : Int) (stats : Statistics) :
    AccessOutcome :=
  match UpdateCriticalImagesSetInDriver driver page_property_cache now_ms stats with
  | ⟨d, s, n₁, n₂⟩ =>
    match d.critical_images_info with
    | none => ⟨none, d, s, n₁, n₂⟩
    | some info => ⟨info.html_critical_images, d, s, n₁, n₂⟩

/-- Model of `CriticalImagesFinder::GetCssCriticalImages`: memoize, then return the
CSS-sourced sub-value of the snapshot (NULL when there is no snapshot). -/
def GetCssCriticalImages (driver : RewriteDriver)
    (page_property_cache : PropertyCache) (now_ms : Int) (stats : Statistics) :
    AccessOutcome :=
  match UpdateCriticalImagesSetInDriver driver page_property_cache now_ms stats with
  | ⟨d, s, n₁, n₂⟩ =>
    match d.critical_images_info with
    | none => ⟨none, d, s, n₁, n₂⟩
    | some info => ⟨info.css_critical_images, d, s, n₁, n₂⟩

/-- Outcome of a membership query (`IsHtmlCriticalImage` /
`IsCssCriticalImage`). -/
structure MembershipOutcome where
  result : Bool
  driver : RewriteDriver
  stats : Statistics
  html_slot_lookups : Nat
  css_slot_lookups : Nat
deriving DecidableEq

/-- Model of `CriticalImagesFinder::IsHtmlCriticalImage`: the accessor's set is
non-NULL and contains the image URL. -/
def IsHtmlCriticalImage (image_url : GoogleString) (driver : RewriteDriver)
    (page_property_cache : PropertyCache) (now_ms : Int) (stats : Statistics) :
    MembershipOutcome :=
  match GetHtmlCriticalImages driver page_property_cache now_ms stats with
  | ⟨none, d, s, n₁, n₂⟩ => ⟨false, d, s, n₁, n₂⟩
  | ⟨some critical_images_set, d, s, n₁, n₂⟩ =>
    ⟨decide (image_url ∈ critical_images_set), d, s, n₁, n₂⟩

/-- Model of `CriticalImagesFinder::IsCssCriticalImage`: the accessor's set is
non-NULL and contains the image URL. -/
def IsCssCriticalImage (image_url : GoogleString) (driver : RewriteDriver)
    (page_property_cache : PropertyCache) (now_ms : Int) (stats : Statistics) :
    MembershipOutcome :=
  match GetCssCriticalImages driver page_property_cache now_ms stats with
  | ⟨none, d, s, n₁, n₂⟩ => ⟨false, d, s, n₁, n₂⟩
  | ⟨some critical_images_set, d, s, n₁, n₂⟩ =>
    ⟨decide (image_url ∈ critical_images_set), d, s, n₁, n₂⟩

/-- Model of `CriticalImagesFinder::SetHtmlCriticalImages`: create the snapshot (both
sides `none`) if it does not exist yet, then reset its HTML-sourced sub-value
to the given (possibly NULL) set, preserving the CSS-sourced sub-value. -/
def SetHtmlCriticalImages (driver : RewriteDriver)
    (critical_images : Option StringSet) : RewriteDriver :=
  match driver.critical_images_info with
  | none => driver.setCriticalImagesInfo ⟨critical_images, none⟩
  | some info =>
    driver.setCriticalImagesInfo ⟨critical_images, info.css_critical_images⟩

/-- Model of `CriticalImagesFinder::SetCssCriticalImages`: create the snapshot (both
sides `none`) if it does not exist yet, then reset its CSS-sourced sub-value
to the given (possibly NULL) set, preserving the HTML-sourced sub-value. -/
def SetCssCriticalImages (driver : RewriteDriver)
    (critical_images : Option StringSet) : RewriteDriver :=
  match driver.critical_images_info with
  | none => driver.setCriticalImagesInfo ⟨none, critical_images⟩
  | some info =>
    driver.setCriticalImagesInfo ⟨info.html_critical_images, critical_images⟩

/-- Modelled from the spec: `PropertyCache::UpdateValue` (property_cache.cc,
not under src/) overwrites the slot with the new string; the storage engine
stamps it with the current time for future expiration checks. -/
def UpdateValue (new_value : GoogleString) (now_ms : Int) : PropertyValue :=
  ⟨new_value, now_ms⟩

/-- Outcome of `UpdateCriticalImagesCacheEntry`: the returned boolean and the
(possibly unchanged) property page. -/
structure CacheUpdateOutcome where
  updated : Bool
  page : Option PropertyPage
deriving DecidableEq

/-- Model of `CriticalImagesFinder::UpdateCriticalImagesCacheEntry`: when the property
cache, the page and the cohort are all available, serialize and write each
non-NULL input set into its slot and return whether at least one side was
written; otherwise write nothing and return false. -/
def UpdateCriticalImagesCacheEntry (page : Option PropertyPage)
    (page_property_cache : Option PropertyCache)
    (critical_images_set css_critical_images_set : Option StringSet)
    (now_ms : Int) : CacheUpdateOutcome :=
  match page_property_cache, page with
  | some pcache, some p =>
    if pcache.has_critical_images_cohort then
      let p₁ : PropertyPage :=
        match critical_images_set with
        | some s =>
          ⟨some (UpdateValue (FormatSetForPropertyCache s) now_ms),
            p.css_critical_images⟩
        | none => p
      let p₂ : PropertyPage :=
        match css_critical_images_set with
        | some s =>
          ⟨p₁.critical_images,
            some (UpdateValue (FormatSetForPropertyCache s) now_ms)⟩
        | none => p₁
      ⟨critical_images_set.isSome || css_critical_images_set.isSome, some p₂⟩
    else
      -- LOG(WARNING) << "Critical Images Cohort is NULL."; no write occurs.
      ⟨false, some p⟩
  | _, _ => ⟨false, page⟩

/-! ## Helper lemmas -/

theorem coe_setIterationOrder (s : StringSet) :
    (setIterationOrder s : Multiset GoogleString) = s.val := by
  rcases s with ⟨m, nd⟩
  revert nd
  induction m using Quotient.inductionOn with
  | h l => exact fun _ => Quot.sound (l.perm_insertionSort _)

theorem mem_setIterationOrder (s : StringSet) (a : GoogleString) :
    a ∈ setIterationOrder s ↔ a ∈ s := by
  rw [← Multiset.mem_coe, coe_setIterationOrder, ← Finset.mem_def]

theorem setIterationOrder_eq_nil_iff (s : StringSet) :
    setIterationOrder s = [] ↔ s = ∅ := by
  rw [← Multiset.coe_eq_zero, coe_setIterationOrder, Finset.val_eq_zero]

theorem toFinset_setIterationOrder (s : StringSet) :
    (setIterationOrder s).toFinset = s :=
  Finset.ext fun a => by rw [List.mem_toFinset, mem_setIterationOrder]

/-- Round-trip of the codec on sets of non-empty, separator-free
identifiers. -/
theorem parse_format (S : StringSet)
    (h : ∀ s ∈ S, s ≠ [] ∧ kImageUrlSeparatorChar ∉ s) :
    ParseCriticalImagesValue (FormatSetForPropertyCache S) = S := by
  rcases eq_or_ne S ∅ with hS | hS
  · subst hS
    decide
  · have hl : setIterationOrder S ≠ [] := by
      rw [ne_eq, setIterationOrder_eq_nil_iff]
      exact hS
    have hmem : ∀ x ∈ setIterationOrder S, kImageUrlSeparatorChar ∉ x := by
      intro x hx
      exact (h x ((mem_setIterationOrder _ _).1 hx)).2
    have hsplit :
        ([kImageUrlSeparatorChar].intercalate (setIterationOrder S)).splitOn
          kImageUrlSeparatorChar = setIterationOrder S :=
      List.splitOn_intercalate _ _ hmem hl
    have hbuf :
        ([kImageUrlSeparatorChar].intercalate (setIterationOrder S)).isEmpty
          = false := by
      cases hb : [kImageUrlSeparatorChar].intercalate (setIterationOrder S) with
      | nil =>
        exfalso
        rw [hb] at hsplit
        have h00 : setIterationOrder S = [[]] :=
          hsplit.symm.trans (by rfl)
        have h0 : ([] : GoogleString) ∈ S := by
          rw [← mem_setIterationOrder, h00]
          exact List.mem_singleton_self _
        exact (h [] h0).1 rfl
      | cons a l => rfl
    have hfilter :
        (setIterationOrder S).filter (fun t => !t.isEmpty)
          = setIterationOrder S := by
      rw [List.filter_eq_self]
      intro a ha
      have ha' := (h a ((mem_setIterationOrder _ _).1 ha)).1
      cases a with
      | nil => exact absurd rfl ha'
      | cons x xs => rfl
    unfold ParseCriticalImagesValue SplitStringPieceToVectorOmitEmpty
      FormatSetForPropertyCache
    simp only [hbuf, Bool.false_eq_true, if_false]
    rw [hsplit, hfilter, toFinset_setIterationOrder]

/-- A driver whose snapshot is already populated is returned unchanged with
no slot lookup and no counter change. -/
theorem update_of_populated (d : RewriteDriver) (pc : PropertyCache)
    (now_ms : Int) (stats : Statistics) (i : CriticalImagesInfo)
    (h : d.critical_images_info = some i) :
    UpdateCriticalImagesSetInDriver d pc now_ms stats = ⟨d, stats, 0, 0⟩ := by
  unfold UpdateCriticalImagesSetInDriver
  rw [h]

/-- After `UpdateCriticalImagesSetInDriver` the snapshot always exists. -/
theorem update_populates (d : RewriteDriver) (pc : PropertyCache)
    (now_ms : Int) (stats : Statistics) :
    (UpdateCriticalImagesSetInDriver d pc now_ms
      stats).driver.critical_images_info.isSome = true := by
  unfold UpdateCriticalImagesSetInDriver
  rcases h : d.critical_images_info with _ | i
  · rcases hp : d.property_page with _ | page <;>
      cases hc : pc.has_critical_images_cohort <;> rfl
  · simp [h]

/-- Each storage slot is looked up at most once per
`UpdateCriticalImagesSetInDriver` call. -/
theorem update_lookups_le (d : RewriteDriver) (pc : PropertyCache)
    (now_ms : Int) (stats : Statistics) :
    (UpdateCriticalImagesSetInDriver d pc now_ms stats).html_slot_lookups ≤ 1 ∧
    (UpdateCriticalImagesSetInDriver d pc now_ms stats).css_slot_lookups ≤ 1 := by
  unfold UpdateCriticalImagesSetInDriver
  rcases h : d.critical_images_info with _ | i
  · rcases hp : d.property_page with _ | page <;>
      cases hc : pc.has_critical_images_cohort <;> exact ⟨by simp, by simp⟩
  · exact ⟨by simp, by simp⟩

/-- Behaviour of `UpdateCriticalImagesSetInDriver` on an empty snapshot with NULL property
page: snapshot created empty, no slot lookup. -/
theorem update_no_page (d : RewriteDriver) (pc : PropertyCache) (now_ms : Int)
    (stats : Statistics) (h : d.critical_images_info = none)
    (hp : d.property_page = none) :
    UpdateCriticalImagesSetInDriver d pc now_ms stats =
      ⟨d.setCriticalImagesInfo ⟨none, none⟩, stats, 0, 0⟩ := by
  unfold UpdateCriticalImagesSetInDriver
  rw [h, hp]

/-- Behaviour of `UpdateCriticalImagesSetInDriver` on an empty snapshot with an
unresolvable cohort: snapshot created empty, no slot lookup. -/
theorem update_no_cohort (d : RewriteDriver) (now_ms : Int)
    (stats : Statistics) (h : d.critical_images_info = none) :
    UpdateCriticalImagesSetInDriver d ⟨false⟩ now_ms stats =
      ⟨d.setCriticalImagesInfo ⟨none, none⟩, stats, 0, 0⟩ := by
  unfold UpdateCriticalImagesSetInDriver
  rw [h]
  cases d.property_page <;> rfl

/-- Behaviour of `UpdateCriticalImagesSetInDriver` on an empty snapshot with page and
cohort available: both slots are read and extracted. -/
theorem update_fresh (d : RewriteDriver) (pc : PropertyCache) (now_ms : Int)
    (stats : Statistics) (page : PropertyPage)
    (h : d.critical_images_info = none) (hp : d.property_page = some page)
    (hc : pc.has_critical_images_cohort = true) :
    UpdateCriticalImagesSetInDriver d pc now_ms stats =
      ⟨d.setCriticalImagesInfo
        ⟨if (ExtractCriticalImagesSet d page.critical_images true ∅ now_ms
              stats).is_valid
          then some (ExtractCriticalImagesSet d page.critical_images true ∅
            now_ms stats).critical_images
          else none,
         if (ExtractCriticalImagesSet d page.css_critical_images true ∅ now_ms
              (ExtractCriticalImagesSet d page.critical_images true ∅ now_ms
                stats).stats).is_valid
          then some (ExtractCriticalImagesSet d page.css_critical_images true ∅
            now_ms (ExtractCriticalImagesSet d page.critical_images true ∅
              now_ms stats).stats).critical_images
          else none⟩,
       (ExtractCriticalImagesSet d page.css_critical_images true ∅ now_ms
         (ExtractCriticalImagesSet d page.critical_images true ∅ now_ms
           stats).stats).stats, 1, 1⟩ := by
  rcases pc with ⟨b⟩
  cases hc
  unfold UpdateCriticalImagesSetInDriver
  rw [h, hp]

/-- Accessor `GetHtmlCriticalImages` spelled out through the update step. -/
theorem getHtml_eq_of_update (d : RewriteDriver) (pc : PropertyCache)
    (now_ms : Int) (stats : Statistics) (d' : RewriteDriver)
    (s' : Statistics) (n₁ n₂ : Nat)
    (hu : UpdateCriticalImagesSetInDriver d pc now_ms stats = ⟨d', s', n₁, n₂⟩) :
    GetHtmlCriticalImages d pc now_ms stats =
      ⟨(match d'.critical_images_info with
        | none => none
        | some i => i.html_critical_images), d', s', n₁, n₂⟩ := by
  unfold GetHtmlCriticalImages
  rw [hu]
  rcases h : d'.critical_images_info with _ | i <;> simp [h]

/-- Accessor `GetCssCriticalImages` spelled out through the update step. -/
theorem getCss_eq_of_update (d : RewriteDriver) (pc : PropertyCache)
    (now_ms : Int) (stats : Statistics) (d' : RewriteDriver)
    (s' : Statistics) (n₁ n₂ : Nat)
    (hu : UpdateCriticalImagesSetInDriver d pc now_ms stats = ⟨d', s', n₁, n₂⟩) :
    GetCssCriticalImages d pc now_ms stats =
      ⟨(match d'.critical_images_info with
        | none => none
        | some i => i.css_critical_images), d', s', n₁, n₂⟩ := by
  unfold GetCssCriticalImages
  rw [hu]
  rcases h : d'.critical_images_info with _ | i <;> simp [h]

/-- Membership `IsHtmlCriticalImage` spelled out through the update step. -/
theorem isHtml_eq_of_update (image_url : GoogleString) (d : RewriteDriver)
    (pc : PropertyCache) (now_ms : Int) (stats : Statistics)
    (d' : RewriteDriver) (s' : Statistics) (n₁ n₂ : Nat)
    (hu : UpdateCriticalImagesSetInDriver d pc now_ms stats = ⟨d', s', n₁, n₂⟩) :
    IsHtmlCriticalImage image_url d pc now_ms stats =
      ⟨(match d'.critical_images_info with
        | none => false
        | some i =>
          match i.html_critical_images with
          | none => false
          | some set => decide (image_url ∈ set)), d', s', n₁, n₂⟩ := by
  unfold IsHtmlCriticalImage
  rw [getHtml_eq_of_update d pc now_ms stats d' s' n₁ n₂ hu]
  rcases h : d'.critical_images_info with _ | i
  · simp [h]
  · rcases h2 : i.html_critical_images with _ | set <;> simp [h, h2]

/-- Membership `IsCssCriticalImage` spelled out through the update step. -/
theorem isCss_eq_of_update (image_url : GoogleString) (d : RewriteDriver)
    (pc : PropertyCache) (now_ms : Int) (stats : Statistics)
    (d' : RewriteDriver) (s' : Statistics) (n₁ n₂ : Nat)
    (hu : UpdateCriticalImagesSetInDriver d pc now_ms stats = ⟨d', s', n₁, n₂⟩) :
    IsCssCriticalImage image_url d pc now_ms stats =
      ⟨(match d'.critical_images_info with
        | none => false
        | some i =>
          match i.css_critical_images with
          | none => false
          | some set => decide (image_url ∈ set)), d', s', n₁, n₂⟩ := by
  unfold IsCssCriticalImage
  rw [getCss_eq_of_update d pc now_ms stats d' s' n₁ n₂ hu]
  rcases h : d'.critical_images_info with _ | i
  · simp [h]
  · rcases h2 : i.css_critical_images with _ | set <;> simp [h, h2]

/-- Projection of `set_critical_images_info`. -/
theorem setInfo_info (d : RewriteDriver) (i : CriticalImagesInfo) :
    (d.setCriticalImagesInfo i).critical_images_info = some i := rfl

/-- Reading an absent slot with stat tracking on a full-render driver. -/
theorem extract_not_found (info : Option CriticalImagesInfo) (ttl : Int)
    (page : Option PropertyPage) (S₀ : StringSet) (now_ms : Int)
    (stats : Statistics) :
    ExtractCriticalImagesSet ⟨info, false, ttl, page⟩ none true S₀ now_ms
      stats = ⟨S₀, false, stats.addNotFound⟩ := by
  unfold ExtractCriticalImagesSet
  simp

/-- Reading an expired slot with stat tracking on a full-render driver. -/
theorem extract_expired (info : Option CriticalImagesInfo) (ttl : Int)
    (page : Option PropertyPage) (pv : PropertyValue) (S₀ : StringSet)
    (now_ms : Int) (stats : Statistics)
    (h : ttl < now_ms - pv.write_timestamp_ms) :
    ExtractCriticalImagesSet ⟨info, false, ttl, page⟩ (some pv) true S₀ now_ms
      stats = ⟨S₀, false, stats.addExpired⟩ := by
  unfold ExtractCriticalImagesSet
  simp [IsExpired, h]

/-- Reading a present, unexpired slot with stat tracking on a full-render
driver. -/
theorem extract_valid (info : Option CriticalImagesInfo) (ttl : Int)
    (page : Option PropertyPage) (pv : PropertyValue) (S₀ : StringSet)
    (now_ms : Int) (stats : Statistics)
    (h : ¬(ttl < now_ms - pv.write_timestamp_ms)) :
    ExtractCriticalImagesSet ⟨info, false, ttl, page⟩ (some pv) true S₀ now_ms
      stats =
      ⟨S₀ ∪ ParseCriticalImagesValue pv.value, true, stats.addValid⟩ := by
  unfold ExtractCriticalImagesSet
  simp [IsExpired, h]

/-! ## Claim theorems -/

/-- C2: for a stat-tracked read of a slot during full rendering, an absent
value returns nothing and bumps only the not-found counter; a present value
with TTL < now - write time returns nothing and bumps only the expired
counter once; otherwise the deserialized set is produced and only the valid
counter is bumped. -/
theorem C2_read_slot_counters (info : Option CriticalImagesInfo) (ttl : Int)
    (page : Option PropertyPage) (pv : PropertyValue) (S₀ : StringSet)
    (now_ms : Int) (stats : Statistics) :
    (ExtractCriticalImagesSet ⟨info, false, ttl, page⟩ none true S₀ now_ms
      stats = ⟨S₀, false, stats.addNotFound⟩) ∧
    (ttl < now_ms - pv.write_timestamp_ms →
      ExtractCriticalImagesSet ⟨info, false, ttl, page⟩ (some pv) true S₀
        now_ms stats = ⟨S₀, false, stats.addExpired⟩) ∧
    (¬(ttl < now_ms - pv.write_timestamp_ms) →
      ExtractCriticalImagesSet ⟨info, false, ttl, page⟩ (some pv) true S₀
        now_ms stats =
        ⟨S₀ ∪ ParseCriticalImagesValue pv.value, true, stats.addValid⟩) :=
  ⟨extract_not_found info ttl page S₀ now_ms stats,
   fun h => extract_expired info ttl page pv S₀ now_ms stats h,
   fun h => extract_valid info ttl page pv S₀ now_ms stats h⟩

/-- Witness for C2 at concrete inputs: TTL 1000, write time 0; a read at time
5000 is expired, a read at time 500 is valid. -/
theorem C2_read_slot_counters_witness :
    (ExtractCriticalImagesSet ⟨none, false, 1000, none⟩ none true ∅ 500
      ⟨0, 0, 0⟩ = ⟨∅, false, Statistics.addNotFound ⟨0, 0, 0⟩⟩) ∧
    (ExtractCriticalImagesSet ⟨none, false, 1000, none⟩ (some ⟨['a'], 0⟩) true
      ∅ 5000 ⟨0, 0, 0⟩ = ⟨∅, false, Statistics.addExpired ⟨0, 0, 0⟩⟩) ∧
    (ExtractCriticalImagesSet ⟨none, false, 1000, none⟩ (some ⟨['a'], 0⟩) true
      ∅ 500 ⟨0, 0, 0⟩ = ⟨∅ ∪ ParseCriticalImagesValue ['a'], true,
        Statistics.addValid ⟨0, 0, 0⟩⟩) :=
  ⟨(C2_read_slot_counters none 1000 none ⟨['a'], 0⟩ ∅ 500 ⟨0, 0, 0⟩).1,
   (C2_read_slot_counters none 1000 none ⟨['a'], 0⟩ ∅ 5000 ⟨0, 0, 0⟩).2.1
     (by decide),
   (C2_read_slot_counters none 1000 none ⟨['a'], 0⟩ ∅ 500 ⟨0, 0, 0⟩).2.2
     (by decide)⟩

/-- C3 counterexample: the set whose only identifier is the empty string
contains no separator character anywhere, yet it does not round-trip — it
serializes to the empty-set sentinel and deserializes back to the empty
set. -/
theorem C3_roundtrip_counterexample :
    kImageUrlSeparatorChar ∉ ([] : GoogleString) ∧
    ParseCriticalImagesValue
      (FormatSetForPropertyCache {([] : GoogleString)}) = ∅ ∧
    ({([] : GoogleString)} : StringSet) ≠ ∅ := by
  decide

/-- C3 (amended): for every finite set of identifiers that are non-empty and
do not contain the separator character, deserializing the serialization
yields exactly the original set. -/
theorem C3_roundtrip_amended (S : StringSet)
    (h : ∀ s ∈ S, s ≠ [] ∧ kImageUrlSeparatorChar ∉ s) :
    ParseCriticalImagesValue (FormatSetForPropertyCache S) = S :=
  parse_format S h

/-- Witness for C3 at the concrete set of identifiers a.png and b.png. -/
theorem C3_roundtrip_amended_witness :
    ParseCriticalImagesValue (FormatSetForPropertyCache
      {['a', '.', 'p', 'n', 'g'], ['b', '.', 'p', 'n', 'g']}) =
      {['a', '.', 'p', 'n', 'g'], ['b', '.', 'p', 'n', 'g']} :=
  C3_roundtrip_amended _ (by decide)

/-- C4: serializing the empty set yields exactly the lone separator (never
the empty string); deserialization keeps exactly the non-empty tokens of the
separator-split, so the lone separator deserializes to the empty set and
doubled or trailing separators are discarded. -/
theorem C4_empty_set_sentinel_and_separator_tolerance :
    FormatSetForPropertyCache ∅ = kImageUrlSeparator ∧
    FormatSetForPropertyCache ∅ ≠ [] ∧
    ParseCriticalImagesValue kImageUrlSeparator = ∅ ∧
    (∀ value : GoogleString,
      ParseCriticalImagesValue value =
        ((value.splitOn kImageUrlSeparatorChar).toFinset).erase []) ∧
    ParseCriticalImagesValue ['a', '\n', '\n', 'b', '\n'] = {['a'], ['b']} := by
  refine ⟨by decide, by decide, by decide, ?_, by decide⟩
  intro value
  ext a
  simp only [ParseCriticalImagesValue, SplitStringPieceToVectorOmitEmpty,
    List.mem_toFinset, List.mem_filter, Finset.mem_erase,
    Bool.not_eq_eq_eq_not, Bool.not_true, List.isEmpty_eq_false, ne_eq]
  tauto

/-- C5: the cache-entry write returns true exactly when the prerequisites
(page, property cache, cohort) are available and at least one input set is
non-NULL; with an unresolvable cohort, or a missing page or property cache,
it returns false and the page is unchanged. -/
theorem C5_cache_write_updated_flag (p : PropertyPage) (pc : PropertyCache)
    (hs cs : Option StringSet) (now_ms : Int) :
    ((UpdateCriticalImagesCacheEntry (some p) (some pc) hs cs now_ms).updated
      = (pc.has_critical_images_cohort && (hs.isSome || cs.isSome))) ∧
    (UpdateCriticalImagesCacheEntry (some p) (some ⟨false⟩) hs cs now_ms
      = ⟨false, some p⟩) ∧
    (UpdateCriticalImagesCacheEntry none (some pc) hs cs now_ms
      = ⟨false, none⟩) ∧
    (UpdateCriticalImagesCacheEntry (some p) none hs cs now_ms
      = ⟨false, some p⟩) ∧
    (UpdateCriticalImagesCacheEntry none none hs cs now_ms = ⟨false, none⟩) := by
  refine ⟨?_, rfl, rfl, rfl, rfl⟩
  rcases pc with ⟨b⟩
  cases b <;> cases hs <;> cases cs <;>
    simp [UpdateCriticalImagesCacheEntry]

/-- C6: each setter replaces only its own sub-value of the snapshot and
leaves the other side exactly as it was (also when the snapshot has to be
created first). -/
theorem C6_setters_side_independent (d : RewriteDriver)
    (v : Option StringSet) :
    ((SetCssCriticalImages d v).critical_images_info.bind
      (fun i => i.html_critical_images) =
        d.critical_images_info.bind (fun i => i.html_critical_images)) ∧
    ((SetCssCriticalImages d v).critical_images_info.bind
      (fun i => i.css_critical_images) = v) ∧
    ((SetHtmlCriticalImages d v).critical_images_info.bind
      (fun i => i.css_critical_images) =
        d.critical_images_info.bind (fun i => i.css_critical_images)) ∧
    ((SetHtmlCriticalImages d v).critical_images_info.bind
      (fun i => i.html_critical_images) = v) := by
  rcases h : d.critical_images_info with _ | i <;>
    simp [SetCssCriticalImages, SetHtmlCriticalImages,
      RewriteDriver.setCriticalImagesInfo, h]

/-- C8: during a flush-early render pass no counter is ever incremented by
a slot read, whatever the tracking flag, the slot contents and the TTL. -/
theorem C8_flush_early_reads_touch_no_counter
    (info : Option CriticalImagesInfo) (ttl : Int)
    (page : Option PropertyPage) (pv : Option PropertyValue)
    (track_stats : Bool) (S₀ : StringSet) (now_ms : Int)
    (stats : Statistics) :
    (ExtractCriticalImagesSet ⟨info, true, ttl, page⟩ pv track_stats S₀
      now_ms stats).stats = stats := by
  unfold ExtractCriticalImagesSet
  rcases pv with _ | v
  · simp
  · simp only [Bool.not_true, Bool.and_false]
    split <;> rfl

/-- C1: the first membership query populates the snapshot and reads each
storage slot at most once; a second consecutive query on the same image
performs zero slot lookups, changes neither driver nor counters, and returns
the same answer — so across two consecutive queries each slot is read at
most once in total. -/
theorem C1_single_request_memoization (image_url : GoogleString)
    (driver : RewriteDriver) (pc : PropertyCache) (now₁ now₂ : Int)
    (stats : Statistics) :
    ((IsHtmlCriticalImage image_url driver pc now₁ stats).driver.critical_images_info.isSome
      = true) ∧
    (IsHtmlCriticalImage image_url driver pc now₁ stats).html_slot_lookups ≤ 1 ∧
    (IsHtmlCriticalImage image_url driver pc now₁ stats).css_slot_lookups ≤ 1 ∧
    (IsHtmlCriticalImage image_url
        (IsHtmlCriticalImage image_url driver pc now₁ stats).driver pc now₂
        (IsHtmlCriticalImage image_url driver pc now₁ stats).stats =
      ⟨(IsHtmlCriticalImage image_url driver pc now₁ stats).result,
       (IsHtmlCriticalImage image_url driver pc now₁ stats).driver,
       (IsHtmlCriticalImage image_url driver pc now₁ stats).stats, 0, 0⟩) ∧
    ((GetHtmlCriticalImages
        (IsHtmlCriticalImage image_url driver pc now₁ stats).driver pc now₂
        (IsHtmlCriticalImage image_url driver pc now₁ stats).stats).html_slot_lookups
      = 0) ∧
    ((GetCssCriticalImages
        (IsHtmlCriticalImage image_url driver pc now₁ stats).driver pc now₂
        (IsHtmlCriticalImage image_url driver pc now₁ stats).stats).css_slot_lookups
      = 0) := by
  cases hu : UpdateCriticalImagesSetInDriver driver pc now₁ stats with
  | mk d' s' n₁ n₂ =>
  have h1 := isHtml_eq_of_update image_url driver pc now₁ stats d' s' n₁ n₂ hu
  have hpop : d'.critical_images_info.isSome = true := by
    have hq := update_populates driver pc now₁ stats
    rw [hu] at hq
    exact hq
  obtain ⟨i, hi⟩ := Option.isSome_iff_exists.mp hpop
  have hle := update_lookups_le driver pc now₁ stats
  rw [hu] at hle
  have h2 := isHtml_eq_of_update image_url d' pc now₂ s' d' s' 0 0
    (update_of_populated d' pc now₂ s' i hi)
  have h3 := getHtml_eq_of_update d' pc now₂ s' d' s' 0 0
    (update_of_populated d' pc now₂ s' i hi)
  have h4 := getCss_eq_of_update d' pc now₂ s' d' s' 0 0
    (update_of_populated d' pc now₂ s' i hi)
  refine ⟨?_, ?_, ?_, ?_, ?_, ?_⟩
  · rw [h1]
    exact hpop
  · rw [h1]
    exact hle.1
  · rw [h1]
    exact hle.2
  · simp only [h1]
    exact h2
  · simp only [h1]
    rw [h3]
  · simp only [h1]
    rw [h4]

/-- C9: a membership query populates the snapshot and answers false exactly
when the relevant sub-value is absent, and set membership otherwise — it is
a total boolean, never an error. -/
theorem C9_membership_false_when_unknown (image_url : GoogleString)
    (driver : RewriteDriver) (pc : PropertyCache) (now_ms : Int)
    (stats : Statistics) :
    ∃ i : CriticalImagesInfo,
      (IsHtmlCriticalImage image_url driver pc now_ms
        stats).driver.critical_images_info = some i ∧
      ((IsHtmlCriticalImage image_url driver pc now_ms stats).result =
        match i.html_critical_images with
        | none => false
        | some set => decide (image_url ∈ set)) ∧
      ((IsCssCriticalImage image_url driver pc now_ms stats).result =
        match i.css_critical_images with
        | none => false
        | some set => decide (image_url ∈ set)) := by
  cases hu : UpdateCriticalImagesSetInDriver driver pc now_ms stats with
  | mk d' s' n₁ n₂ =>
  have h1 := isHtml_eq_of_update image_url driver pc now_ms stats d' s' n₁ n₂ hu
  have h2 := isCss_eq_of_update image_url driver pc now_ms stats d' s' n₁ n₂ hu
  have hpop : d'.critical_images_info.isSome = true := by
    have hq := update_populates driver pc now_ms stats
    rw [hu] at hq
    exact hq
  obtain ⟨i, hi⟩ := Option.isSome_iff_exists.mp hpop
  refine ⟨i, ?_, ?_, ?_⟩
  · rw [h1]
    exact hi
  · rw [h1]
    simp [hi]
  · rw [h2]
    simp [hi]

/-- C10: a setter call creates the snapshot even before any query; a query
on a driver whose snapshot exists performs zero slot lookups and leaves the
driver unchanged; and a first query with no property page, or with an
unresolvable cohort, still installs a populated (all-`none`) snapshot with
zero slot lookups — so the store read is suppressed for the rest of the
request. -/
theorem C10_snapshot_created_store_suppressed (image_url : GoogleString) :
    (∀ (d : RewriteDriver) (v : Option StringSet),
      (SetHtmlCriticalImages d v).critical_images_info.isSome = true ∧
      (SetCssCriticalImages d v).critical_images_info.isSome = true) ∧
    (∀ (d : RewriteDriver) (pc : PropertyCache) (now_ms : Int)
        (stats : Statistics) (i : CriticalImagesInfo),
      d.critical_images_info = some i →
      IsHtmlCriticalImage image_url d pc now_ms stats =
        ⟨(IsHtmlCriticalImage image_url d pc now_ms stats).result, d, stats,
          0, 0⟩ ∧
      IsCssCriticalImage image_url d pc now_ms stats =
        ⟨(IsCssCriticalImage image_url d pc now_ms stats).result, d, stats,
          0, 0⟩) ∧
    (∀ (fe : Bool) (ttl now_ms : Int) (pc : PropertyCache)
        (stats : Statistics),
      (IsHtmlCriticalImage image_url ⟨none, fe, ttl, none⟩ pc now_ms
        stats).html_slot_lookups = 0 ∧
      (IsHtmlCriticalImage image_url ⟨none, fe, ttl, none⟩ pc now_ms
        stats).css_slot_lookups = 0 ∧
      (IsHtmlCriticalImage image_url ⟨none, fe, ttl, none⟩ pc now_ms
        stats).driver.critical_images_info = some ⟨none, none⟩) ∧
    (∀ (fe : Bool) (ttl now_ms : Int) (pg : Option PropertyPage)
        (stats : Statistics),
      (IsHtmlCriticalImage image_url ⟨none, fe, ttl, pg⟩ ⟨false⟩ now_ms
        stats).html_slot_lookups = 0 ∧
      (IsHtmlCriticalImage image_url ⟨none, fe, ttl, pg⟩ ⟨false⟩ now_ms
        stats).css_slot_lookups = 0 ∧
      (IsHtmlCriticalImage image_url ⟨none, fe, ttl, pg⟩ ⟨false⟩ now_ms
        stats).driver.critical_images_info = some ⟨none, none⟩) := by
  refine ⟨?_, ?_, ?_, ?_⟩
  · intro d v
    rcases h : d.critical_images_info with _ | i <;>
      simp [SetHtmlCriticalImages, SetCssCriticalImages,
        RewriteDriver.setCriticalImagesInfo, h]
  · intro d pc now_ms stats i hi
    have h1 := isHtml_eq_of_update image_url d pc now_ms stats d stats 0 0
      (update_of_populated d pc now_ms stats i hi)
    have h2 := isCss_eq_of_update image_url d pc now_ms stats d stats 0 0
      (update_of_populated d pc now_ms stats i hi)
    constructor
    · rw [h1]
    · rw [h2]
  · intro fe ttl now_ms pc stats
    have h1 := isHtml_eq_of_update image_url ⟨none, fe, ttl, none⟩ pc now_ms
      stats _ _ _ _ (update_no_page ⟨none, fe, ttl, none⟩ pc now_ms stats rfl
        rfl)
    rw [h1]
    exact ⟨rfl, rfl, rfl⟩
  · intro fe ttl now_ms pg stats
    have h1 := isHtml_eq_of_update image_url ⟨none, fe, ttl, pg⟩ ⟨false⟩
      now_ms stats _ _ _ _ (update_no_cohort ⟨none, fe, ttl, pg⟩ now_ms stats
        rfl)
    rw [h1]
    exact ⟨rfl, rfl, rfl⟩

/-- Witness for C10: a populated snapshot suppresses the store read at a
concrete input, and a setter call on a fresh request creates the snapshot. -/
theorem C10_snapshot_created_store_suppressed_witness :
    (IsHtmlCriticalImage ['a'] ⟨some ⟨none, none⟩, false, 7, none⟩ ⟨true⟩ 3
      ⟨0, 0, 0⟩ =
      ⟨(IsHtmlCriticalImage ['a'] ⟨some ⟨none, none⟩, false, 7, none⟩ ⟨true⟩ 3
        ⟨0, 0, 0⟩).result, ⟨some ⟨none, none⟩, false, 7, none⟩, ⟨0, 0, 0⟩, 0,
        0⟩) ∧
    (SetHtmlCriticalImages ⟨none, false, 7, none⟩
      (some {['a']})).critical_images_info.isSome = true :=
  ⟨((C10_snapshot_created_store_suppressed ['a']).2.1
      ⟨some ⟨none, none⟩, false, 7, none⟩ ⟨true⟩ 3 ⟨0, 0, 0⟩ ⟨none, none⟩
      rfl).1,
   ((C10_snapshot_created_store_suppressed ['a']).1
      ⟨none, false, 7, none⟩ (some {['a']})).1⟩

/-- C7: writing only the HTML-sourced set leaves the CSS slot untouched; a
later read within the TTL yields HTML-sourced = the written set and
CSS-sourced = none, membership against the HTML side tests the written set,
membership against the CSS side is false; and a slot that is present but
expired reads back as none as well. -/
theorem C7_write_html_only_then_read (S : StringSet)
    (h : ∀ s ∈ S, s ≠ [] ∧ kImageUrlSeparatorChar ∉ s)
    (t_write now_ms ttl : Int) (httl : now_ms - t_write ≤ ttl)
    (stats : Statistics) (image_url : GoogleString) :
    (UpdateCriticalImagesCacheEntry (some ⟨none, none⟩) (some ⟨true⟩) (some S)
      none t_write).updated = true ∧
    (UpdateCriticalImagesCacheEntry (some ⟨none, none⟩) (some ⟨true⟩) (some S)
      none t_write).page =
      some ⟨some ⟨FormatSetForPropertyCache S, t_write⟩, none⟩ ∧
    (GetHtmlCriticalImages ⟨none, false, ttl,
        some ⟨some ⟨FormatSetForPropertyCache S, t_write⟩, none⟩⟩ ⟨true⟩
        now_ms stats).result = some S ∧
    (GetCssCriticalImages ⟨none, false, ttl,
        some ⟨some ⟨FormatSetForPropertyCache S, t_write⟩, none⟩⟩ ⟨true⟩
        now_ms stats).result = none ∧
    (IsHtmlCriticalImage image_url ⟨none, false, ttl,
        some ⟨some ⟨FormatSetForPropertyCache S, t_write⟩, none⟩⟩ ⟨true⟩
        now_ms stats).result = decide (image_url ∈ S) ∧
    (IsCssCriticalImage image_url ⟨none, false, ttl,
        some ⟨some ⟨FormatSetForPropertyCache S, t_write⟩, none⟩⟩ ⟨true⟩
        now_ms stats).result = false ∧
    (∀ (pv : PropertyValue) (ttl₂ now₂ : Int) (slot₂ : Option PropertyValue)
        (stats₂ : Statistics), ttl₂ < now₂ - pv.write_timestamp_ms →
      (GetHtmlCriticalImages ⟨none, false, ttl₂, some ⟨some pv, slot₂⟩⟩
        ⟨true⟩ now₂ stats₂).result = none) := by
  have hnl : ¬(ttl < now_ms - t_write) := not_lt.mpr httl
  have hP := parse_format S h
  have ho₁ : ExtractCriticalImagesSet
      ⟨none, false, ttl,
        some ⟨some ⟨FormatSetForPropertyCache S, t_write⟩, none⟩⟩
      (some ⟨FormatSetForPropertyCache S, t_write⟩) true ∅ now_ms stats =
      ⟨S, true, stats.addValid⟩ := by
    rw [extract_valid none ttl
      (some ⟨some ⟨FormatSetForPropertyCache S, t_write⟩, none⟩)
      ⟨FormatSetForPropertyCache S, t_write⟩ ∅ now_ms stats hnl]
    simp [hP]
  have ho₂ := extract_not_found none ttl
    (some ⟨some ⟨FormatSetForPropertyCache S, t_write⟩, none⟩) ∅ now_ms
    stats.addValid
  have hu : UpdateCriticalImagesSetInDriver
      ⟨none, false, ttl,
        some ⟨some ⟨FormatSetForPropertyCache S, t_write⟩, none⟩⟩
      ⟨true⟩ now_ms stats =
      ⟨RewriteDriver.setCriticalImagesInfo
        ⟨none, false, ttl,
          some ⟨some ⟨FormatSetForPropertyCache S, t_write⟩, none⟩⟩
        ⟨some S, none⟩, (stats.addValid).addNotFound, 1, 1⟩ := by
    unfold UpdateCriticalImagesSetInDriver
    simp only [ho₁, ho₂]
    simp
  have hg := getHtml_eq_of_update _ _ _ _ _ _ _ _ hu
  have hgc := getCss_eq_of_update _ _ _ _ _ _ _ _ hu
  have hih := isHtml_eq_of_update image_url _ _ _ _ _ _ _ _ hu
  have hic := isCss_eq_of_update image_url _ _ _ _ _ _ _ _ hu
  refine ⟨rfl, rfl, ?_, ?_, ?_, ?_, ?_⟩
  · rw [hg]
    simp [RewriteDriver.setCriticalImagesInfo]
  · rw [hgc]
    simp [RewriteDriver.setCriticalImagesInfo]
  · rw [hih]
    simp [RewriteDriver.setCriticalImagesInfo]
  · rw [hic]
    simp [RewriteDriver.setCriticalImagesInfo]
  · intro pv ttl₂ now₂ slot₂ stats₂ hexp
    have he := extract_expired none ttl₂ (some ⟨some pv, slot₂⟩) pv ∅ now₂
      stats₂ hexp
    cases hc2 : ExtractCriticalImagesSet
        ⟨none, false, ttl₂, some ⟨some pv, slot₂⟩⟩ slot₂ true ∅ now₂
        stats₂.addExpired with
    | mk c₂ v₂ s₂ =>
    have hu₂ : UpdateCriticalImagesSetInDriver
        ⟨none, false, ttl₂, some ⟨some pv, slot₂⟩⟩ ⟨true⟩ now₂ stats₂ =
        ⟨RewriteDriver.setCriticalImagesInfo
          ⟨none, false, ttl₂, some ⟨some pv, slot₂⟩⟩
          ⟨none, if v₂ then some c₂ else none⟩, s₂, 1, 1⟩ := by
      unfold UpdateCriticalImagesSetInDriver
      simp only [he, hc2]
      simp
    have hg₂ := getHtml_eq_of_update _ _ _ _ _ _ _ _ hu₂
    rw [hg₂]
    simp [RewriteDriver.setCriticalImagesInfo]

/-- Witness for C7 at the concrete scenario of the spec: write
HTML-sourced = the set of a.png and b.png at time 0, read at time 500 with
TTL 1000; a.png is HTML-critical, c.png is not, and a.png is not
CSS-critical. -/
theorem C7_write_html_only_then_read_witness :
    ((IsHtmlCriticalImage ['a', '.', 'p', 'n', 'g'] ⟨none, false, 1000,
        some ⟨some ⟨FormatSetForPropertyCache
          {['a', '.', 'p', 'n', 'g'], ['b', '.', 'p', 'n', 'g']}, 0⟩, none⟩⟩
        ⟨true⟩ 500 ⟨0, 0, 0⟩).result =
      decide (['a', '.', 'p', 'n', 'g'] ∈
        ({['a', '.', 'p', 'n', 'g'], ['b', '.', 'p', 'n', 'g']} :
          StringSet))) ∧
    ((IsHtmlCriticalImage ['c', '.', 'p', 'n', 'g'] ⟨none, false, 1000,
        some ⟨some ⟨FormatSetForPropertyCache
          {['a', '.', 'p', 'n', 'g'], ['b', '.', 'p', 'n', 'g']}, 0⟩, none⟩⟩
        ⟨true⟩ 500 ⟨0, 0, 0⟩).result =
      decide (['c', '.', 'p', 'n', 'g'] ∈
        ({['a', '.', 'p', 'n', 'g'], ['b', '.', 'p', 'n', 'g']} :
          StringSet))) ∧
    ((IsCssCriticalImage ['a', '.', 'p', 'n', 'g'] ⟨none, false, 1000,
        some ⟨some ⟨FormatSetForPropertyCache
          {['a', '.', 'p', 'n', 'g'], ['b', '.', 'p', 'n', 'g']}, 0⟩, none⟩⟩
        ⟨true⟩ 500 ⟨0, 0, 0⟩).result = false) :=
  ⟨(C7_write_html_only_then_read
      {['a', '.', 'p', 'n', 'g'], ['b', '.', 'p', 'n', 'g']} (by decide) 0
      500 1000 (by decide) ⟨0, 0, 0⟩
      ['a', '.', 'p', 'n', 'g']).2.2.2.2.1,
   (C7_write_html_only_then_read
      {['a', '.', 'p', 'n', 'g'], ['b', '.', 'p', 'n', 'g']} (by decide) 0
      500 1000 (by decide) ⟨0, 0, 0⟩
      ['c', '.', 'p', 'n', 'g']).2.2.2.2.1,
   (C7_write_html_only_then_read
      {['a', '.', 'p', 'n', 'g'], ['b', '.', 'p', 'n', 'g']} (by decide) 0
      500 1000 (by decide) ⟨0, 0, 0⟩
      ['a', '.', 'p', 'n', 'g']).2.2.2.2.2.1⟩

end NetInstaweb
